import Mathlib

/-!
Shallow embedding of the garage-system booking core: the Mongoose models
(`models/booking.js`, `models/garage`, `models/Service`, `models/User`,
`models/Review.js`, `models/Payment.js`), the booking controller
(`createBooking`, `updateBookingStatus`, `cancelBooking`, `deleteBooking`,
`checkAvailability`), the review controller (`createReview`), the payment
controller (`handleChapaWebhook`, `verifyPayment`) and the booking router's
authentication wiring (`routes/booking.routes.js`).

Representation choices:
* Mongo `_id`s are `Nat`; `findById`/`findOne({_id: …})` on the keyed
  collections (users, garages, services) is function application, since `_id`
  is a unique key.  Bookings, reviews and payments are kept as lists because
  the controllers query them by non-key fields.
* Times of day are minutes since midnight.  The source stores zero-padded
  "HH:MM" strings and compares them with JavaScript string order, which on
  zero-padded "HH:MM" coincides with minute-of-day order (the spec sanctions
  either representation).
* Each controller runs in a transaction that is aborted on every error path,
  so an operation returns `Except Err Result`: on `.error` no state change is
  committed and the caller keeps the old `DB`.
* Mongoose schemas run in strict mode (the default: none of the schemas sets
  `strict`), so document paths that are not declared in the schema are never
  persisted by `save()` and are stripped from `findByIdAndUpdate` payloads.
  `bookingSchema` declares `carOwner, garage, service, bookingDate, timeSlot,
  status, vehicleInfo, notes, attachments, isDeleted` — and in particular
  does NOT declare `statusHistory`, `isPaid`, `payment`, `price`, `deletedAt`
  or `deletedBy`.  The persisted `Booking` record below mirrors exactly the
  schema paths; the controllers' in-memory writes to `statusHistory` are
  modelled by `BookingDoc` plus `saveBooking`, which drops non-schema paths.
-/

inductive BookingStatus
  | pending | approved | inProgress | completed | cancelled | rejected
deriving DecidableEq, Repr

/-- Source string of a booking status (the `bookingSchema` enum). -/
def BookingStatus.name : BookingStatus → String
  | .pending => "pending"
  | .approved => "approved"
  | .inProgress => "in_progress"
  | .completed => "completed"
  | .cancelled => "cancelled"
  | .rejected => "rejected"

inductive GarageStatus
  | pending | active | suspended
deriving DecidableEq, Repr

inductive PaymentStatus
  | pending | completed | failed | refunded
deriving DecidableEq, Repr

inductive PaymentType
  | garageCreation | booking | subscription | other
deriving DecidableEq, Repr

inductive Role
  | admin | carOwner | garageOwner
deriving DecidableEq, Repr

/-- The `timeSlot` subdocument of `bookingSchema`: times of day in minutes
since midnight, standing for the zero-padded "HH:MM" strings of the source.
The source field `end` is a Lean keyword and is embedded as `stop`. -/
structure TimeSlot where
  start : Nat
  stop : Nat
deriving DecidableEq, Repr

/-- The `vehicleInfo` subdocument of `bookingSchema`. -/
structure VehicleInfo where
  make : String
  model : String
  year : Option Nat
  licensePlate : String
deriving DecidableEq, Repr

/-- Persisted booking record: exactly the declared paths of `bookingSchema`
(`models/booking.js`).  Note that `statusHistory`, `isPaid`, `payment`,
`price`, `deletedAt`, `deletedBy` are NOT schema paths. -/
structure Booking where
  id : Nat
  carOwner : Nat
  garage : Nat
  service : Nat
  bookingDate : Nat
  timeSlot : TimeSlot
  status : BookingStatus
  vehicleInfo : VehicleInfo
  notes : String
  attachments : List String
  isDeleted : Bool
deriving DecidableEq, Repr

/-- One entry the controllers push onto the in-memory `statusHistory`
property: `{ status, changedBy, reason, changedAt }`. -/
structure HistoryEntry where
  status : BookingStatus
  changedBy : Nat
  reason : String
  changedAt : Nat
deriving DecidableEq, Repr

/-- In-memory Mongoose document for a booking: the persisted schema paths
plus the ad-hoc `statusHistory` property the controllers assign, which is not
a `bookingSchema` path. -/
structure BookingDoc where
  persisted : Booking
  statusHistory : List HistoryEntry
deriving DecidableEq, Repr

/-- Loading a booking from the store yields a document whose non-schema
`statusHistory` property is absent; the controllers normalise it with
`booking.statusHistory || []`. -/
def loadBooking (b : Booking) : BookingDoc :=
  { persisted := b, statusHistory := [] }

/-- `document.save()` under Mongoose strict mode: only declared schema paths
are written back; the ad-hoc `statusHistory` property is dropped. -/
def saveBooking (d : BookingDoc) : Booking :=
  d.persisted

/-- One weekday entry of `garageSchema.businessHours` (`daySchema`), with
open/close as minutes since midnight. -/
structure DayHours where
  openTime : Nat
  closeTime : Nat
  closed : Bool
deriving DecidableEq, Repr

inductive Weekday
  | monday | tuesday | wednesday | thursday | friday | saturday | sunday
deriving DecidableEq, Repr

/-- The per-weekday `businessHours` subdocument of `garageSchema`; `none`
models an absent entry (the controller guards `!businessDay`). -/
structure BusinessHours where
  monday : Option DayHours
  tuesday : Option DayHours
  wednesday : Option DayHours
  thursday : Option DayHours
  friday : Option DayHours
  saturday : Option DayHours
  sunday : Option DayHours
deriving DecidableEq, Repr

/-- `garage.businessHours[dayOfWeek]`. -/
def BusinessHours.get (bh : BusinessHours) : Weekday → Option DayHours
  | .monday => bh.monday
  | .tuesday => bh.tuesday
  | .wednesday => bh.wednesday
  | .thursday => bh.thursday
  | .friday => bh.friday
  | .saturday => bh.saturday
  | .sunday => bh.sunday

/-- Weekday of a calendar date (dates are day numbers; the controller derives
the weekday with `toLocaleString`; the particular anchoring of `% 7` is
immaterial to the claims). -/
def weekdayOf (date : Nat) : Weekday :=
  match date % 7 with
  | 0 => .sunday
  | 1 => .monday
  | 2 => .tuesday
  | 3 => .wednesday
  | 4 => .thursday
  | 5 => .friday
  | _ => .saturday

/-- `garage.stats` counters touched by the booking lifecycle. -/
structure GarageStats where
  totalBookings : Nat
  completedBookings : Nat
deriving DecidableEq, Repr

/-- Persisted garage record (the `garageSchema` paths the booking core
reads; provider metadata, images and the like are omitted as they carry no
logic). -/
structure Garage where
  id : Nat
  owner : Nat
  businessHours : BusinessHours
  status : GarageStatus
  stats : GarageStats
  creationPayment : Option Nat
  paidAt : Option Nat
  isDeleted : Bool
deriving DecidableEq, Repr

/-- Persisted service record (`serviceSchema`). -/
structure Service where
  id : Nat
  garage : Nat
  price : Nat
  duration : Nat
  isAvailable : Bool
  isDeleted : Bool
deriving DecidableEq, Repr

/-- Persisted user record (`userSchema`); `garageCreationPayments` holds the
payment ids pushed by the payment controller. -/
structure User where
  id : Nat
  role : Role
  canCreateGarage : Bool
  garageCreationPayments : List Nat
  isDeleted : Bool
deriving DecidableEq, Repr

/-- Persisted review record (`reviewSchema`; title/comment/categories are
omitted as they carry no logic for the claims). -/
structure Review where
  id : Nat
  carOwner : Nat
  garage : Nat
  booking : Nat
  rating : Nat
  isDeleted : Bool
deriving DecidableEq, Repr

/-- Persisted payment record (`paymentSchema`; `provider` metadata omitted,
it is an opaque blob). -/
structure Payment where
  id : Nat
  user : Nat
  paymentType : PaymentType
  booking : Option Nat
  garageCreationGarage : Option Nat
  amount : Nat
  status : PaymentStatus
  transactionId : String
  paidAt : Option Nat
deriving DecidableEq, Repr

/-- The persistent store.  Users, garages and services are keyed by `_id`;
bookings, reviews and payments are lists since the controllers run
field-based queries over them. -/
structure DB where
  users : Nat → Option User
  garages : Nat → Option Garage
  services : Nat → Option Service
  bookings : List Booking
  reviews : List Review
  payments : List Payment

/-- Result payload of an operation, with the whole-`DB` component stripped,
for decidable statements about concrete runs. -/
def okPart {e a : Type} : Except e a → Option a
  | .ok x => some x
  | .error _ => none

/-- The error of a failed operation, if any. -/
def errPart {e a : Type} : Except e a → Option e
  | .ok _ => none
  | .error x => some x

/-- Whether an operation committed. -/
def isOkE {e a : Type} : Except e a → Bool
  | .ok _ => true
  | .error _ => false

/-- `status: { $nin: ['cancelled', 'rejected'] }` in the conflict query of
`createBooking` and `checkAvailability`. -/
def BookingStatus.blocksSlot : BookingStatus → Bool
  | .cancelled => false
  | .rejected => false
  | _ => true

/-- Predicate of the conflict query: same garage, same date, exact
`timeSlot.start`/`timeSlot.end`, status not in {cancelled, rejected}, not
soft-deleted. -/
def occupies (gid date s e : Nat) (b : Booking) : Bool :=
  b.garage == gid && b.bookingDate == date &&
  b.timeSlot.start == s && b.timeSlot.stop == e &&
  b.status.blocksSlot && !b.isDeleted

/-- `Booking.findOne({garage, bookingDate, 'timeSlot.start', 'timeSlot.end',
status: {$nin: […]}, isDeleted: false})`, shared by `createBooking` and
`checkAvailability`. -/
def findConflict (db : DB) (gid date : Nat) (slot : TimeSlot) : Option Booking :=
  db.bookings.find? (occupies gid date slot.start slot.stop)

/-- Number of non-cancelled/non-rejected, non-deleted bookings occupying a
given (garage, date, start, end) tuple. -/
def slotOccupancy (db : DB) (gid date s e : Nat) : Nat :=
  db.bookings.countP (occupies gid date s e)

/-- The double-booking invariant: at most one active booking per
(garage, date, start, end) tuple. -/
def atMostOnePerSlot (db : DB) : Prop :=
  ∀ gid date s e, slotOccupancy db gid date s e ≤ 1

inductive CreateErr
  | garageNotFound
  | serviceNotFound
  | slotTaken
deriving DecidableEq, Repr

/-- `createBooking` (booking controller).  The typed interface makes the
missing-required-fields branch unreachable, so it is not modelled.  Every
error path aborts the transaction, leaving the store untouched. -/
def createBooking (db : DB) (userId gid sid date newId : Nat) (slot : TimeSlot)
    (vehicle : VehicleInfo) (notes : String) : Except CreateErr (DB × Booking) :=
  match (db.garages gid).filter (fun g => !g.isDeleted && g.status == GarageStatus.active) with
  | none => .error .garageNotFound
  | some garage =>
    match (db.services sid).filter (fun s => s.garage == gid && !s.isDeleted && s.isAvailable) with
    | none => .error .serviceNotFound
    | some _service =>
      match findConflict db gid date slot with
      | some _ => .error .slotTaken
      | none =>
        let b : Booking :=
          { id := newId, carOwner := userId, garage := gid, service := sid,
            bookingDate := date, timeSlot := slot, status := .pending,
            vehicleInfo := vehicle, notes := notes, attachments := [],
            isDeleted := false }
        let garage' :=
          { garage with stats :=
              { garage.stats with totalBookings := garage.stats.totalBookings + 1 } }
        .ok ({ db with
                bookings := db.bookings ++ [b],
                garages := fun n => if n == gid then some garage' else db.garages n }, b)

inductive AvailReason
  | closedThisDay
  | outsideBusinessHours
  | slotTaken
  | durationTooShort (slotDuration serviceDuration : Int)
deriving DecidableEq, Repr

/-- The `reason` string the controller returns for each unavailable case. -/
def AvailReason.message : AvailReason → String
  | .closedThisDay => "Garage is closed on this day"
  | .outsideBusinessHours => "Time slot is outside business hours"
  | .slotTaken => "Time slot already booked"
  | .durationTooShort _ _ => "Time slot duration is less than service duration"

inductive AvailResult
  | garageNotFound
  | unavailable (reason : AvailReason)
  | available
deriving DecidableEq, Repr

/-- `checkAvailability` (booking controller): read-only; checks run in order
and short-circuit on the first failure. -/
def checkAvailability (db : DB) (gid : Nat) (serviceId : Option Nat) (date : Nat)
    (slot : TimeSlot) : AvailResult :=
  match (db.garages gid).filter (fun g => !g.isDeleted) with
  | none => .garageNotFound
  | some garage =>
    match garage.businessHours.get (weekdayOf date) with
    | none => .unavailable .closedThisDay
    | some businessDay =>
      if businessDay.closed then .unavailable .closedThisDay
      else if !(decide (businessDay.openTime ≤ slot.start) &&
                decide (slot.stop ≤ businessDay.closeTime)) then
        .unavailable .outsideBusinessHours
      else
        match findConflict db gid date slot with
        | some _ => .unavailable .slotTaken
        | none =>
          match serviceId with
          | none => .available
          | some sid =>
            match db.services sid with
            | none => .available
            | some service =>
              if (slot.stop : Int) - (slot.start : Int) < (service.duration : Int) then
                .unavailable (.durationTooShort ((slot.stop : Int) - (slot.start : Int)) service.duration)
              else .available

/-- The `validTransitions` table of `updateBookingStatus`. -/
def validTransitions : BookingStatus → List BookingStatus
  | .pending => [.approved, .rejected, .cancelled]
  | .approved => [.inProgress, .cancelled]
  | .inProgress => [.completed, .cancelled]
  | .completed => []
  | .cancelled => []
  | .rejected => []

inductive UpdateErr
  | bookingNotFound
  | garageMissing
  | notAuthorized
  | invalidTransition (source target : BookingStatus)
deriving DecidableEq, Repr

/-- The 400 message of an invalid transition, naming source and target. -/
def UpdateErr.message : UpdateErr → String
  | .bookingNotFound => "Booking not found"
  | .garageMissing => "Booking not found"
  | .notAuthorized => "Not authorized to update this booking"
  | .invalidTransition s t => "Cannot transition from " ++ s.name ++ " to " ++ t.name

structure UpdateResult where
  db : DB
  doc : BookingDoc
  booking : Booking
  changed : Bool

/-- `updateBookingStatus` (booking controller): find the booking, authorize
garage owner or admin, treat a same-status request as a successful no-op,
validate the transition table, then set the status, push one history entry on
the in-memory document and save (strict mode keeps only schema paths), and
bump `completedBookings` when the target is `completed`. -/
def updateBookingStatus (db : DB) (actor : User) (bookingId : Nat)
    (target : BookingStatus) (reason : Option String) (now : Nat) :
    Except UpdateErr UpdateResult :=
  match db.bookings.find? (fun b => b.id == bookingId) with
  | none => .error .bookingNotFound
  | some booking =>
    if booking.isDeleted then .error .bookingNotFound
    else
      match db.garages booking.garage with
      | none => .error .garageMissing
      | some garage =>
        let isGarageOwner := garage.owner == actor.id
        let isAdmin := actor.role == Role.admin
        if !isGarageOwner && !isAdmin then .error .notAuthorized
        else if booking.status == target then
          .ok { db := db, doc := loadBooking booking, booking := booking, changed := false }
        else if !((validTransitions booking.status).contains target) then
          .error (.invalidTransition booking.status target)
        else
          let doc : BookingDoc :=
            { persisted := { booking with status := target },
              statusHistory := (loadBooking booking).statusHistory ++
                [{ status := target, changedBy := actor.id,
                   reason := reason.getD ("Status changed to " ++ target.name),
                   changedAt := now }] }
          let saved := saveBooking doc
          let garage' := { garage with stats :=
            { garage.stats with
                completedBookings := garage.stats.completedBookings + 1 } }
          let garages' : Nat → Option Garage :=
            if target == BookingStatus.completed then
              fun n => if n == booking.garage then some garage' else db.garages n
            else db.garages
          let bookings' := db.bookings.map (fun b => if b.id == booking.id then saved else b)
          .ok { db := { db with bookings := bookings', garages := garages' },
                doc := doc, booking := saved, changed := true }

inductive CancelErr
  | bookingNotFound
  | notCancellable (status : BookingStatus)
deriving DecidableEq, Repr

structure CancelResult where
  db : DB
  doc : BookingDoc
  booking : Booking

/-- `cancelBooking` (booking controller): the car owner's cancel path; finds
the booking by id + `carOwner` + not deleted, allows only `pending` and
`approved` sources, and always targets `cancelled`. -/
def cancelBooking (db : DB) (actor : User) (bookingId : Nat)
    (reason : Option String) (now : Nat) : Except CancelErr CancelResult :=
  match db.bookings.find? (fun b => b.id == bookingId && b.carOwner == actor.id && !b.isDeleted) with
  | none => .error .bookingNotFound
  | some booking =>
    if !([BookingStatus.pending, BookingStatus.approved].contains booking.status) then
      .error (.notCancellable booking.status)
    else
      let doc : BookingDoc :=
        { persisted := { booking with status := BookingStatus.cancelled },
          statusHistory := (loadBooking booking).statusHistory ++
            [{ status := BookingStatus.cancelled, changedBy := actor.id,
               reason := reason.getD "Cancelled by customer", changedAt := now }] }
      let saved := saveBooking doc
      .ok { db := { db with
              bookings := db.bookings.map (fun b => if b.id == booking.id then saved else b) },
            doc := doc, booking := saved }

inductive DeleteErr
  | bookingNotFound
  | notAuthorized
  | garageMissing
deriving DecidableEq, Repr

/-- `deleteBooking` (booking controller): soft delete; sets `isDeleted` (the
controller also assigns `deletedAt`/`deletedBy`, which are not
`bookingSchema` paths and hence not persisted) and, when the booking was
`completed`, decrements `completedBookings` with `Math.max(0, c - 1)` —
embedded as `Nat` subtraction, which floors at 0. -/
def deleteBooking (db : DB) (actor : User) (bookingId : Nat) : Except DeleteErr DB :=
  match db.bookings.find? (fun b => b.id == bookingId) with
  | none => .error .bookingNotFound
  | some booking =>
    if booking.isDeleted then .error .bookingNotFound
    else
      let isAuthorized :=
        actor.role == Role.admin || booking.carOwner == actor.id ||
        (actor.role == Role.garageOwner &&
          ((db.garages booking.garage).filter (fun g => g.owner == actor.id)).isSome)
      if !isAuthorized then .error .notAuthorized
      else
        let saved := { booking with isDeleted := true }
        let db1 := { db with
          bookings := db.bookings.map (fun b => if b.id == booking.id then saved else b) }
        if booking.status == BookingStatus.completed then
          match db.garages booking.garage with
          | none => .error .garageMissing
          | some garage =>
            let garage' := { garage with stats :=
              { garage.stats with
                  completedBookings := garage.stats.completedBookings - 1 } }
            let garages' : Nat → Option Garage :=
              fun n => if n == booking.garage then some garage' else db1.garages n
            .ok { db1 with garages := garages' }
        else .ok db1

inductive ReviewErr
  | bookingNotFound
  | invalidState (status : BookingStatus)
  | duplicateReview
  | garageNotFound
  | uniqueIndexViolation
deriving DecidableEq, Repr

/-- `createReview` (review controller).  The booking is fetched with a single
query `{_id, carOwner: req.user.id, isDeleted: false}`, so an absent booking,
a booking of another car owner and a soft-deleted booking all fail with the
same `bookingNotFound` error.  The supplied garage is only required to exist
and not be soft-deleted — it is never compared with `booking.garage`.  The
final guard models `reviewSchema.index({booking: 1}, {unique: true})`: the
insert itself fails (surfaced as a 500 by the catch block) when any review,
even a soft-deleted one, already references the booking. -/
def createReview (db : DB) (userId gid bookingId rating newId : Nat) :
    Except ReviewErr (DB × Review) :=
  match db.bookings.find? (fun b => b.id == bookingId && b.carOwner == userId && !b.isDeleted) with
  | none => .error .bookingNotFound
  | some booking =>
    if !(booking.status == BookingStatus.completed || booking.status == BookingStatus.approved) then
      .error (.invalidState booking.status)
    else
      match db.reviews.find? (fun r => r.booking == bookingId && !r.isDeleted) with
      | some _ => .error .duplicateReview
      | none =>
        match (db.garages gid).filter (fun g => !g.isDeleted) with
        | none => .error .garageNotFound
        | some _garage =>
          if db.reviews.any (fun r => r.booking == bookingId) then
            .error .uniqueIndexViolation
          else
            let review : Review :=
              { id := newId, carOwner := userId, garage := gid,
                booking := bookingId, rating := rating, isDeleted := false }
            .ok ({ db with reviews := db.reviews ++ [review] }, review)

/-- At most one review (deleted or not) references any given booking — the
property the unique index on `booking` maintains. -/
def atMostOneReviewPerBooking (db : DB) : Prop :=
  ∀ bid, db.reviews.countP (fun r => r.booking == bid) ≤ 1

inductive WebhookErr
  | invalidSignature
  | paymentNotFound
deriving DecidableEq, Repr

/-- `handleChapaWebhook` (payment controller).  After the HMAC check the
payment found by `tx_ref` is written unconditionally:
`status := payload.status == 'success' ? 'completed' : 'failed'`, with
`paidAt` stamped on success; the prior payment status is never consulted.
On success, a booking payment triggers
`Booking.findByIdAndUpdate({isPaid, payment, status: 'approved'})` — `isPaid`
and `payment` are not `bookingSchema` paths, so strict mode strips them and
only `status: 'approved'` is applied; a garage-creation payment sets the
user's `canCreateGarage` and pushes into `garageCreationPayments`, and stamps
the garage's `paidAt` while keeping its status `pending`. -/
def handleChapaWebhook (db : DB) (signatureValid : Bool) (txRef : String)
    (payloadStatus : String) (now : Nat) : Except WebhookErr DB :=
  if !signatureValid then .error .invalidSignature
  else
    match db.payments.find? (fun p => p.transactionId == txRef) with
    | none => .error .paymentNotFound
    | some payment =>
      let success := payloadStatus == "success"
      let payment' := { payment with
        status := if success then PaymentStatus.completed else PaymentStatus.failed,
        paidAt := if success then some now else payment.paidAt }
      let db1 := { db with
        payments := db.payments.map (fun p => if p.id == payment.id then payment' else p) }
      if success then
        if payment.paymentType == PaymentType.garageCreation then
          let settleUser : User → User := fun u =>
            { u with canCreateGarage := true,
                     garageCreationPayments := u.garageCreationPayments ++ [payment.id] }
          let users' : Nat → Option User := fun n =>
            if n == payment.user then (db.users payment.user).map settleUser else db1.users n
          let db2 := { db1 with users := users' }
          match payment.garageCreationGarage with
          | some gid =>
            let stampGarage : Garage → Garage := fun g =>
              { g with creationPayment := some payment.id,
                       paidAt := some now, status := GarageStatus.pending }
            let garages' : Nat → Option Garage := fun n =>
              if n == gid then (db.garages gid).map stampGarage else db2.garages n
            .ok { db2 with garages := garages' }
          | none => .ok db2
        else if payment.paymentType == PaymentType.booking then
          match payment.booking with
          | some bid =>
            let bookings' := db1.bookings.map (fun b =>
              if b.id == bid then { b with status := BookingStatus.approved } else b)
            .ok { db1 with bookings := bookings' }
          | none => .ok db1
        else .ok db1
      else .ok db1

inductive VerifyErr
  | paymentNotFound
deriving DecidableEq, Repr

/-- `verifyPayment` (payment controller): the manual verification path.
Unlike the webhook it re-checks the stored payment status before mutating:
the settled branch runs only when `payment.status !== 'completed'`, and the
failed branch only when `payment.status === 'pending'`.  Its booking branch
issues `Booking.findByIdAndUpdate({isPaid: true})` only; `isPaid` is not a
`bookingSchema` path, so the persisted booking is unchanged. -/
def verifyPayment (db : DB) (txRef : String) (chapaStatus : String) (now : Nat) :
    Except VerifyErr DB :=
  match db.payments.find? (fun p => p.transactionId == txRef) with
  | none => .error .paymentNotFound
  | some payment =>
    if chapaStatus == "success" && !(payment.status == PaymentStatus.completed) then
      let payment' := { payment with status := PaymentStatus.completed, paidAt := some now }
      let db1 := { db with
        payments := db.payments.map (fun p => if p.id == payment.id then payment' else p) }
      if payment.paymentType == PaymentType.garageCreation then
        let users' : Nat → Option User := fun n =>
          if n == payment.user then
            (db.users payment.user).map (fun u => { u with canCreateGarage := true })
          else db1.users n
        .ok { db1 with users := users' }
      else .ok db1
    else if chapaStatus == "failed" && payment.status == PaymentStatus.pending then
      .ok { db with payments := db.payments.map (fun p =>
              if p.id == payment.id then { payment with status := PaymentStatus.failed } else p) }
    else .ok db

inductive BookingRoute
  | listAll | create | getById | updateStatus | cancel | timeline
  | checkAvail | calendarRange | uploadAttach | deleteAttach
  | statsAnalytics | softDelete
deriving DecidableEq, Repr

/-- The `authorize(...)` role lists attached per route in
`routes/booking.routes.js`; `none` when a route declares no role filter. -/
def routeAuthorize : BookingRoute → Option (List Role)
  | .create => some [.carOwner]
  | .updateStatus => some [.garageOwner, .admin]
  | .cancel => some [.carOwner]
  | .statsAnalytics => some [.admin, .garageOwner]
  | _ => none

inductive Dispatch
  | unauthorized
  | forbidden
  | handled
deriving DecidableEq, Repr

/-- Request dispatch through `routes/booking.routes.js`.  The file registers
`router.use(protect)` (line 10) before every route, including
`POST /check-availability` (line 39), so every booking request reaches the
`protect` middleware first: with no authenticated principal it responds 401
and no handler runs.  `authorize(...)` then filters by role where declared. -/
def dispatchBooking (principal : Option User) (route : BookingRoute) : Dispatch :=
  match principal with
  | none => .unauthorized
  | some u =>
    match routeAuthorize route with
    | none => .handled
    | some roles => if roles.contains u.role then .handled else .forbidden

/-- The mutating booking operations named by the spec's interface contract. -/
def mutatingBookingRoutes : List BookingRoute :=
  [.create, .updateStatus, .cancel, .softDelete, .uploadAttach, .deleteAttach]

/-! Concrete fixtures shared by witnesses and counterexamples. -/

def exVehicle : VehicleInfo :=
  { make := "Toyota", model := "Corolla", year := some 2020, licensePlate := "AA-12345" }

def openDay : DayHours := { openTime := 540, closeTime := 1080, closed := false }

def closedDay : DayHours := { openTime := 540, closeTime := 1080, closed := true }

def allOpenHours : BusinessHours :=
  { monday := some openDay, tuesday := some openDay, wednesday := some openDay,
    thursday := some openDay, friday := some openDay, saturday := some openDay,
    sunday := some openDay }

def allClosedHours : BusinessHours :=
  { monday := some closedDay, tuesday := some closedDay, wednesday := some closedDay,
    thursday := some closedDay, friday := some closedDay, saturday := some closedDay,
    sunday := some closedDay }

def exGarage : Garage :=
  { id := 1, owner := 5, businessHours := allOpenHours, status := .active,
    stats := { totalBookings := 0, completedBookings := 0 },
    creationPayment := none, paidAt := none, isDeleted := false }

def exService : Service :=
  { id := 2, garage := 1, price := 100, duration := 60, isAvailable := true,
    isDeleted := false }

def exOwner : User :=
  { id := 5, role := .garageOwner, canCreateGarage := true,
    garageCreationPayments := [], isDeleted := false }

def exCarOwner : User :=
  { id := 7, role := .carOwner, canCreateGarage := false,
    garageCreationPayments := [], isDeleted := false }

def exAdmin : User :=
  { id := 9, role := .admin, canCreateGarage := false,
    garageCreationPayments := [], isDeleted := false }

def exSlot : TimeSlot := { start := 540, stop := 600 }

def baseDB : DB :=
  { users := fun n =>
      if n == 5 then some exOwner
      else if n == 7 then some exCarOwner
      else if n == 9 then some exAdmin
      else none,
    garages := fun n => if n == 1 then some exGarage else none,
    services := fun n => if n == 2 then some exService else none,
    bookings := [], reviews := [], payments := [] }

def exBooking : Booking :=
  { id := 10, carOwner := 7, garage := 1, service := 2, bookingDate := 1,
    timeSlot := exSlot, status := .pending, vehicleInfo := exVehicle,
    notes := "", attachments := [], isDeleted := false }

/-- Database holding one active pending booking for garage 1, date 1,
slot 09:00-10:00. -/
def c1DB : DB := { baseDB with bookings := [exBooking] }

/-- Committed store of a create call, or the unchanged store on abort. -/
def dbOfCreate {e : Type} (r : Except e (DB × Booking)) (fallback : DB) : DB :=
  match r with
  | .ok (d, _) => d
  | .error _ => fallback

/-- The store a create call committed from `baseDB`, used to exercise the
preservation part of the slot-uniqueness theorem at a concrete input. -/
def c1After : DB := dbOfCreate (createBooking baseDB 7 1 2 1 11 exSlot exVehicle "") baseDB

/-- The booking a create call inserted from `baseDB`. -/
def c1NewBooking : Booking :=
  match createBooking baseDB 7 1 2 1 11 exSlot exVehicle "" with
  | .ok (_, b) => b
  | .error _ => exBooking

/-- C1: at most one non-cancelled/non-rejected, non-deleted booking occupies
a (garage, date, start, end) tuple through booking creation: (1) a create
against a tuple with an existing conflicting booking never commits; (2) under
successful garage and service lookups it fails precisely with the slot-taken
conflict error; (3) when no conflicting booking exists (and the garage and
service preconditions hold) the create commits, inserting a booking with
status `pending`; (4) creation preserves the at-most-one-per-slot
invariant. -/
theorem C1_slot_uniqueness :
    (∀ db userId gid sid date newId slot vehicle notes,
       (findConflict db gid date slot).isSome = true →
       isOkE (createBooking db userId gid sid date newId slot vehicle notes) = false)
  ∧ (∀ db userId gid sid date newId slot vehicle notes g s c,
       (db.garages gid).filter (fun g => !g.isDeleted && g.status == GarageStatus.active) = some g →
       (db.services sid).filter (fun s => s.garage == gid && !s.isDeleted && s.isAvailable) = some s →
       findConflict db gid date slot = some c →
       createBooking db userId gid sid date newId slot vehicle notes = .error .slotTaken)
  ∧ (∀ db userId gid sid date newId slot vehicle notes g s,
       (db.garages gid).filter (fun g => !g.isDeleted && g.status == GarageStatus.active) = some g →
       (db.services sid).filter (fun s => s.garage == gid && !s.isDeleted && s.isAvailable) = some s →
       findConflict db gid date slot = none →
       ∃ db' b, createBooking db userId gid sid date newId slot vehicle notes = .ok (db', b) ∧
         b.status = .pending ∧ db'.bookings = db.bookings ++ [b])
  ∧ (∀ db userId gid sid date newId slot vehicle notes db' b,
       atMostOnePerSlot db →
       createBooking db userId gid sid date newId slot vehicle notes = .ok (db', b) →
       atMostOnePerSlot db') := by
  refine ⟨?_, ?_, ?_, ?_⟩
  · intro db userId gid sid date newId slot vehicle notes hconf
    unfold createBooking
    cases hG : (db.garages gid).filter (fun g => !g.isDeleted && g.status == GarageStatus.active) with
    | none => simp [isOkE]
    | some g =>
      cases hS : (db.services sid).filter (fun s => s.garage == gid && !s.isDeleted && s.isAvailable) with
      | none => simp [isOkE]
      | some s =>
        cases hC : findConflict db gid date slot with
        | none => rw [hC] at hconf; simp [Option.isSome] at hconf
        | some c => simp [isOkE]
  · intro db userId gid sid date newId slot vehicle notes g s c hG hS hC
    unfold createBooking
    rw [hG, hS, hC]
  · intro db userId gid sid date newId slot vehicle notes g s hG hS hC
    unfold createBooking
    rw [hG, hS, hC]
    exact ⟨_, _, rfl, rfl, rfl⟩
  · intro db userId gid sid date newId slot vehicle notes db' b hinv hok
    unfold createBooking at hok
    cases hG : (db.garages gid).filter (fun g => !g.isDeleted && g.status == GarageStatus.active) with
    | none => rw [hG] at hok; exact absurd hok (by simp)
    | some g =>
      rw [hG] at hok
      cases hS : (db.services sid).filter (fun s => s.garage == gid && !s.isDeleted && s.isAvailable) with
      | none => rw [hS] at hok; exact absurd hok (by simp)
      | some s =>
        rw [hS] at hok
        cases hC : findConflict db gid date slot with
        | some c => rw [hC] at hok; exact absurd hok (by simp)
        | none =>
          rw [hC] at hok
          simp only [Except.ok.injEq, Prod.mk.injEq] at hok
          obtain ⟨hdb, hb⟩ := hok
          intro gid' date' s' e'
          have hbooks : db'.bookings = db.bookings ++ [b] := by
            rw [← hdb, ← hb]
          unfold slotOccupancy
          rw [hbooks, List.countP_append]
          by_cases hocc : occupies gid' date' s' e' b = true
          · have hzero : db.bookings.countP (occupies gid' date' s' e') = 0 := by
              have hb' : b.garage = gid ∧ b.bookingDate = date ∧
                  b.timeSlot.start = slot.start ∧ b.timeSlot.stop = slot.stop := by
                rw [← hb]; exact ⟨rfl, rfl, rfl, rfl⟩
              unfold occupies at hocc
              simp only [Bool.and_eq_true, beq_iff_eq] at hocc
              obtain ⟨⟨⟨⟨⟨h1, h2⟩, h3⟩, h4⟩, _⟩, _⟩ := hocc
              have e1 : gid' = gid := by rw [← h1, hb'.1]
              have e2 : date' = date := by rw [← h2, hb'.2.1]
              have e3 : s' = slot.start := by rw [← h3, hb'.2.2.1]
              have e4 : e' = slot.stop := by rw [← h4, hb'.2.2.2]
              subst e1 e2 e3 e4
              have := List.find?_eq_none.mp hC
              exact List.countP_eq_zero.mpr (by intro a ha; exact this a ha)
            rw [hzero]
            simp [List.countP_cons, hocc]
          · have : List.countP (occupies gid' date' s' e') [b] = 0 := by
              simp [List.countP_cons, hocc]
            rw [this]
            simpa [slotOccupancy] using hinv gid' date' s' e'

/-- Witness for C1 at concrete inputs: a conflicting create against `c1DB`
aborts with the slot-taken error; the same create against the empty store
commits a pending booking; and the committed store still satisfies the
invariant. -/
theorem C1_slot_uniqueness_witness :
    (isOkE (createBooking c1DB 7 1 2 1 11 exSlot exVehicle "") = false)
  ∧ (createBooking c1DB 7 1 2 1 11 exSlot exVehicle "" = .error .slotTaken)
  ∧ (∃ db' b, createBooking baseDB 7 1 2 1 11 exSlot exVehicle "" = .ok (db', b) ∧
       b.status = .pending ∧ db'.bookings = baseDB.bookings ++ [b])
  ∧ atMostOnePerSlot c1After := by
  refine ⟨?_, ?_, ?_, ?_⟩
  · exact C1_slot_uniqueness.1 c1DB 7 1 2 1 11 exSlot exVehicle "" (by decide)
  · exact C1_slot_uniqueness.2.1 c1DB 7 1 2 1 11 exSlot exVehicle "" exGarage exService
      exBooking (by decide) (by decide) (by decide)
  · exact C1_slot_uniqueness.2.2.1 baseDB 7 1 2 1 11 exSlot exVehicle "" exGarage exService
      (by decide) (by decide) (by decide)
  · exact C1_slot_uniqueness.2.2.2 baseDB 7 1 2 1 11 exSlot exVehicle "" c1After c1NewBooking
      (by intro gid date s e; simp [slotOccupancy, baseDB, List.countP_nil]) rfl

/-- Garage 1 with every weekday marked closed, otherwise like `exGarage`. -/
def c2Garage : Garage := { exGarage with businessHours := allClosedHours }

/-- Store in which garage 1 is active but closed every day. -/
def c2DB : DB := { baseDB with garages := fun n => if n == 1 then some c2Garage else none }

/-- C2 counterexample: `checkAvailability` reports unavailable (closed this
day) for garage 1, date 1, slot 09:00-10:00 with service 2, yet
`createBooking` succeeds on exactly those inputs — creation does not run the
business-hours (or duration) parts of the availability logic, refuting the
claim that create rejects whenever checkAvailability reports
available=false. -/
theorem C2_counterexample :
    checkAvailability c2DB 1 (some 2) 1 exSlot = .unavailable .closedThisDay
  ∧ isOkE (createBooking c2DB 7 1 2 1 11 exSlot exVehicle "") = true := by
  constructor
  · decide
  · decide

/-- C2 (amended): booking creation re-executes only the conflict portion of
the availability logic.  (1) Create commits exactly when the garage lookup
(active, not deleted), the service lookup (same garage, not deleted,
available) and the absence of a conflicting active booking all hold — the
business-hours and service-duration checks of `checkAvailability` are not
consulted.  (2) Consequently, whenever `checkAvailability` reports
unavailable because the slot is already booked, create rejects the same
inputs. -/
theorem C2_create_conflict_refinement :
    (∀ db userId gid sid date newId slot vehicle notes,
       isOkE (createBooking db userId gid sid date newId slot vehicle notes) =
         (((db.garages gid).filter (fun g => !g.isDeleted && g.status == GarageStatus.active)).isSome
          && ((db.services sid).filter (fun s => s.garage == gid && !s.isDeleted && s.isAvailable)).isSome
          && (findConflict db gid date slot).isNone))
  ∧ (∀ db userId gid sid date newId slot vehicle notes,
       checkAvailability db gid (some sid) date slot = .unavailable .slotTaken →
       isOkE (createBooking db userId gid sid date newId slot vehicle notes) = false) := by
  constructor
  · intro db userId gid sid date newId slot vehicle notes
    unfold createBooking
    cases hG : (db.garages gid).filter (fun g => !g.isDeleted && g.status == GarageStatus.active) with
    | none => simp [isOkE]
    | some g =>
      cases hS : (db.services sid).filter (fun s => s.garage == gid && !s.isDeleted && s.isAvailable) with
      | none => simp [isOkE]
      | some s =>
        cases hC : findConflict db gid date slot with
        | none => simp [isOkE]
        | some c => simp [isOkE]
  · intro db userId gid sid date newId slot vehicle notes hca
    have hconf : (findConflict db gid date slot).isSome = true := by
      unfold checkAvailability at hca
      repeat' split at hca
      all_goals simp_all
    unfold createBooking
    cases hG : (db.garages gid).filter (fun g => !g.isDeleted && g.status == GarageStatus.active) with
    | none => simp [isOkE]
    | some g =>
      cases hS : (db.services sid).filter (fun s => s.garage == gid && !s.isDeleted && s.isAvailable) with
      | none => simp [isOkE]
      | some s =>
        cases hC : findConflict db gid date slot with
        | none => rw [hC] at hconf; exact absurd hconf (by simp)
        | some c => simp [isOkE]

/-- Witness for C2 at concrete inputs: the success-condition equation
evaluated on `baseDB`, and the slot-taken propagation on `c1DB` (which holds
a conflicting booking for the slot). -/
theorem C2_create_conflict_refinement_witness :
    (isOkE (createBooking baseDB 7 1 2 1 11 exSlot exVehicle "") =
      (((baseDB.garages 1).filter (fun g => !g.isDeleted && g.status == GarageStatus.active)).isSome
       && ((baseDB.services 2).filter (fun s => s.garage == 1 && !s.isDeleted && s.isAvailable)).isSome
       && (findConflict baseDB 1 1 exSlot).isNone))
  ∧ isOkE (createBooking c1DB 7 1 2 1 11 exSlot exVehicle "") = false := by
  constructor
  · exact C2_create_conflict_refinement.1 baseDB 7 1 2 1 11 exSlot exVehicle ""
  · exact C2_create_conflict_refinement.2 c1DB 7 1 2 1 11 exSlot exVehicle "" (by decide)

/-- C7: the availability checks run in order with short-circuiting and the
business-hours comparison is inclusive.  With the garage found (not deleted)
and its weekday entry resolved: (1) a day marked closed is rejected with the
closed-this-day reason regardless of the times given; (2) a slot whose start
equals the day's open and whose end equals the day's close is never rejected
as outside business hours; (3) such a boundary slot with no conflicting
booking and no service requested is reported available; (4) a slot starting
one minute before open, and (5) a slot ending one minute after close, are
rejected as outside business hours. -/
theorem C7_availability_boundaries
    (db : DB) (gid : Nat) (sid : Option Nat) (date : Nat) (slot : TimeSlot)
    (g : Garage) (day : DayHours)
    (hg : db.garages gid = some g) (hnd : g.isDeleted = false)
    (hday : g.businessHours.get (weekdayOf date) = some day) :
    (day.closed = true → checkAvailability db gid sid date slot = .unavailable .closedThisDay)
  ∧ (day.closed = false → slot.start = day.openTime → slot.stop = day.closeTime →
       checkAvailability db gid sid date slot ≠ .unavailable .outsideBusinessHours)
  ∧ (day.closed = false → slot.start = day.openTime → slot.stop = day.closeTime →
       findConflict db gid date slot = none → sid = none →
       checkAvailability db gid sid date slot = .available)
  ∧ (day.closed = false → slot.start + 1 = day.openTime →
       checkAvailability db gid sid date slot = .unavailable .outsideBusinessHours)
  ∧ (day.closed = false → day.closeTime + 1 = slot.stop →
       checkAvailability db gid sid date slot = .unavailable .outsideBusinessHours) := by
  have hfilter : (db.garages gid).filter (fun x => !x.isDeleted) = some g := by
    rw [hg]
    simp [Option.filter, hnd]
  refine ⟨?_, ?_, ?_, ?_, ?_⟩
  · intro hclosed
    unfold checkAvailability
    rw [hfilter]; dsimp only
    rw [hday]; dsimp only
    simp [hclosed]
  · intro hopen heq1 heq2
    unfold checkAvailability
    rw [hfilter]; dsimp only
    rw [hday]; dsimp only
    rw [if_neg (by simp [hopen])]
    rw [if_neg (by simp [heq1, heq2])]
    repeat' split
    all_goals simp
  · intro hopen heq1 heq2 hconf hsid
    subst hsid
    unfold checkAvailability
    rw [hfilter]; dsimp only
    rw [hday]; dsimp only
    rw [if_neg (by simp [hopen])]
    rw [if_neg (by simp [heq1, heq2])]
    rw [hconf]
  · intro hopen hminute
    unfold checkAvailability
    rw [hfilter]; dsimp only
    rw [hday]; dsimp only
    rw [if_neg (by simp [hopen])]
    have h1 : ¬ (day.openTime ≤ slot.start) := by omega
    rw [if_pos (by simp [h1])]
  · intro hopen hminute
    unfold checkAvailability
    rw [hfilter]; dsimp only
    rw [hday]; dsimp only
    rw [if_neg (by simp [hopen])]
    have h2 : ¬ (slot.stop ≤ day.closeTime) := by omega
    rw [if_pos (by simp [h2])]

/-- Witness for C7 at concrete inputs: garage 1 of `c2DB` is closed on date
1's weekday; garage 1 of `baseDB` opens 09:00 (540) and closes 18:00 (1080),
so the exact-boundary slot is available and the one-minute-outside slots are
rejected as outside business hours. -/
theorem C7_availability_boundaries_witness :
    checkAvailability c2DB 1 (some 2) 1 exSlot = .unavailable .closedThisDay
  ∧ checkAvailability baseDB 1 none 1 ⟨540, 1080⟩ = .available
  ∧ checkAvailability baseDB 1 none 1 ⟨539, 1080⟩ = .unavailable .outsideBusinessHours
  ∧ checkAvailability baseDB 1 none 1 ⟨540, 1081⟩ = .unavailable .outsideBusinessHours := by
  refine ⟨?_, ?_, ?_, ?_⟩
  · exact (C7_availability_boundaries c2DB 1 (some 2) 1 exSlot c2Garage closedDay
      (by decide) (by decide) (by decide)).1 (by decide)
  · exact (C7_availability_boundaries baseDB 1 none 1 ⟨540, 1080⟩ exGarage openDay
      (by decide) (by decide) (by decide)).2.2.1 (by decide) (by decide) (by decide)
      (by decide) rfl
  · exact (C7_availability_boundaries baseDB 1 none 1 ⟨539, 1080⟩ exGarage openDay
      (by decide) (by decide) (by decide)).2.2.2.1 (by decide) (by decide)
  · exact (C7_availability_boundaries baseDB 1 none 1 ⟨540, 1081⟩ exGarage openDay
      (by decide) (by decide) (by decide)).2.2.2.2 (by decide) (by decide)

/-- Booking 12 already in the terminal `completed` status. -/
def c4Booking : Booking := { exBooking with id := 12, status := .completed }

/-- Store holding the completed booking 12 for garage 1. -/
def c4DB : DB := { baseDB with bookings := [c4Booking] }

/-- C4 counterexample: the pair (completed, completed) is not in the
transition table — the claim says every such pair fails with an
InvalidTransition error — yet requesting `completed` on the already-completed
booking 12 succeeds as a no-op (the same-status branch runs before the table
is consulted), returning the unchanged booking. -/
theorem C4_counterexample :
    (okPart (updateBookingStatus c4DB exOwner 12 .completed none 0)).map
      (fun r => (r.changed, r.booking.status)) = some (false, .completed) := by decide

/-- C4 (amended): with the booking found (not soft-deleted), its garage
resolved and the actor authorized (garage owner or admin): (1) requesting the
booking's current status again succeeds as a no-op — the store, the booking
and the history are unchanged; (2) for a target different from the current
status, the transition succeeds exactly when (current, target) is in the
`validTransitions` table; (3) any other pair fails with an InvalidTransition
error naming the source and the target, the aborted transaction leaving the
store untouched; (4) the car owner's cancel succeeds exactly from `pending`
or `approved`, and (5) always targets `cancelled`. -/
theorem C4_transition_table :
    (∀ db actor bid target reason now bk g,
       db.bookings.find? (fun b => b.id == bid) = some bk → bk.isDeleted = false →
       db.garages bk.garage = some g → (g.owner = actor.id ∨ actor.role = Role.admin) →
       bk.status = target →
       updateBookingStatus db actor bid target reason now =
         .ok { db := db, doc := loadBooking bk, booking := bk, changed := false })
  ∧ (∀ db actor bid target reason now bk g,
       db.bookings.find? (fun b => b.id == bid) = some bk → bk.isDeleted = false →
       db.garages bk.garage = some g → (g.owner = actor.id ∨ actor.role = Role.admin) →
       bk.status ≠ target →
       (isOkE (updateBookingStatus db actor bid target reason now) = true ↔
         (validTransitions bk.status).contains target = true))
  ∧ (∀ db actor bid target reason now bk g,
       db.bookings.find? (fun b => b.id == bid) = some bk → bk.isDeleted = false →
       db.garages bk.garage = some g → (g.owner = actor.id ∨ actor.role = Role.admin) →
       bk.status ≠ target → (validTransitions bk.status).contains target = false →
       updateBookingStatus db actor bid target reason now =
         .error (.invalidTransition bk.status target))
  ∧ (∀ db actor bid reason now bk,
       db.bookings.find? (fun b => b.id == bid && b.carOwner == actor.id && !b.isDeleted) = some bk →
       (isOkE (cancelBooking db actor bid reason now) = true ↔
         (bk.status = .pending ∨ bk.status = .approved)))
  ∧ (∀ db actor bid reason now r,
       cancelBooking db actor bid reason now = .ok r →
       r.booking.status = .cancelled) := by
  refine ⟨?_, ?_, ?_, ?_, ?_⟩
  · intro db actor bid target reason now bk g hfind hdel hg hauth hsame
    have hauthb : (!(g.owner == actor.id) && !(actor.role == Role.admin)) = false := by
      rcases hauth with h | h <;> simp [h]
    unfold updateBookingStatus
    rw [hfind]; dsimp only
    rw [if_neg (by simp [hdel])]
    rw [hg]; dsimp only
    rw [if_neg (by simp [hauthb])]
    rw [if_pos (by simp [hsame])]
  · intro db actor bid target reason now bk g hfind hdel hg hauth hne
    have hauthb : (!(g.owner == actor.id) && !(actor.role == Role.admin)) = false := by
      rcases hauth with h | h <;> simp [h]
    have hneb : (bk.status == target) = false := by simp [hne]
    unfold updateBookingStatus
    rw [hfind]; dsimp only
    rw [if_neg (by simp [hdel])]
    rw [hg]; dsimp only
    rw [if_neg (by simp [hauthb])]
    rw [if_neg (by simp [hneb])]
    cases htab : (validTransitions bk.status).contains target <;> simp [isOkE, htab]
  · intro db actor bid target reason now bk g hfind hdel hg hauth hne htab
    have hauthb : (!(g.owner == actor.id) && !(actor.role == Role.admin)) = false := by
      rcases hauth with h | h <;> simp [h]
    have hneb : (bk.status == target) = false := by simp [hne]
    unfold updateBookingStatus
    rw [hfind]; dsimp only
    rw [if_neg (by simp [hdel])]
    rw [hg]; dsimp only
    rw [if_neg (by simp [hauthb])]
    rw [if_neg (by simp [hneb])]
    rw [if_pos (by simp only [Bool.not_eq_true']; exact htab)]
  · intro db actor bid reason now bk hfind
    unfold cancelBooking
    rw [hfind]; dsimp only
    cases hbs : bk.status <;> simp [isOkE, hbs]
  · intro db actor bid reason now r hok
    unfold cancelBooking at hok
    repeat' split at hok
    · exact absurd hok (by simp)
    · exact absurd hok (by simp)
    · simp only [Except.ok.injEq] at hok
      rw [← hok]
      rfl

/-- The committed result of the car owner cancelling booking 10 of `c1DB`
(with a fallback value on the impossible abort branch). -/
def c4CancelRes : CancelResult :=
  match cancelBooking c1DB exCarOwner 10 none 3 with
  | .ok r => r
  | .error _ => { db := c1DB, doc := loadBooking exBooking, booking := exBooking }

/-- Witness for C4 at concrete inputs: the same-status no-op on the completed
booking 12, a valid pending→approved transition, the rejected
pending→completed transition naming source and target, and the car owner's
cancel from pending ending in `cancelled`. -/
theorem C4_transition_table_witness :
    updateBookingStatus c4DB exOwner 12 .completed none 0 =
      .ok { db := c4DB, doc := loadBooking c4Booking, booking := c4Booking, changed := false }
  ∧ isOkE (updateBookingStatus c1DB exOwner 10 .approved none 0) = true
  ∧ updateBookingStatus c1DB exOwner 10 .completed none 0 =
      .error (.invalidTransition .pending .completed)
  ∧ isOkE (cancelBooking c1DB exCarOwner 10 none 3) = true
  ∧ c4CancelRes.booking.status = .cancelled := by
  refine ⟨?_, ?_, ?_, ?_, ?_⟩
  · exact C4_transition_table.1 c4DB exOwner 12 .completed none 0 c4Booking exGarage
      (by decide) (by decide) (by decide) (Or.inl (by decide)) (by decide)
  · exact (C4_transition_table.2.1 c1DB exOwner 10 .approved none 0 exBooking exGarage
      (by decide) (by decide) (by decide) (Or.inl (by decide)) (by decide)).mpr (by decide)
  · exact C4_transition_table.2.2.1 c1DB exOwner 10 .completed none 0 exBooking exGarage
      (by decide) (by decide) (by decide) (Or.inl (by decide)) (by decide) (by decide)
  · exact (C4_transition_table.2.2.2.1 c1DB exCarOwner 10 none 3 exBooking (by decide)).mpr
      (Or.inl (by decide))
  · exact C4_transition_table.2.2.2.2 c1DB exCarOwner 10 none 3 c4CancelRes rfl

/-- C3 (code-bug evidence): garage owner 5 transitions the pending booking 10
of `c1DB` to approved.  The controller pushes exactly one history entry
`{approved, 5, "Status changed to approved", 7}` onto the in-memory document,
but `statusHistory` is not a `bookingSchema` path, so the saved booking
carries only schema fields: reloading it yields an empty history even though
the booking's status is now `approved` — no entry is ever appended to the
persisted `statusHistory`, and the reloaded history cannot end with the
current status. -/
theorem C3_statusHistory_not_persisted :
    (okPart (updateBookingStatus c1DB exOwner 10 .approved none 7)).map
      (fun r => (r.doc.statusHistory, r.booking.status, (loadBooking r.booking).statusHistory))
      = some ([{ status := .approved, changedBy := 5,
                 reason := "Status changed to approved", changedAt := 7 }],
              .approved, []) := by
  rfl

/-- Committed store of an update call, or the unchanged store on abort. -/
def dbOfUpdate (r : Except UpdateErr UpdateResult) (fallback : DB) : DB :=
  match r with
  | .ok u => u.db
  | .error _ => fallback

/-- Committed store of a delete call, or the unchanged store on abort. -/
def dbOfDelete (r : Except DeleteErr DB) (fallback : DB) : DB :=
  match r with
  | .ok d => d
  | .error _ => fallback

def slotB : TimeSlot := ⟨600, 660⟩

def slotC : TimeSlot := ⟨660, 720⟩

/-- Scenario stores: three creates against garage 1 of `baseDB`... -/
def c6db1 : DB := dbOfCreate (createBooking baseDB 7 1 2 1 21 exSlot exVehicle "") baseDB

def c6db2 : DB := dbOfCreate (createBooking c6db1 7 1 2 1 22 slotB exVehicle "") c6db1

def c6db3 : DB := dbOfCreate (createBooking c6db2 7 1 2 1 23 slotC exVehicle "") c6db2

/-- ... then booking 21 moves pending → approved → in_progress → completed ... -/
def c6db4 : DB := dbOfUpdate (updateBookingStatus c6db3 exOwner 21 .approved none 1) c6db3

def c6db5 : DB := dbOfUpdate (updateBookingStatus c6db4 exOwner 21 .inProgress none 2) c6db4

def c6db6 : DB := dbOfUpdate (updateBookingStatus c6db5 exOwner 21 .completed none 3) c6db5

/-- ... and finally the completed booking 21 is soft-deleted. -/
def c6db7 : DB := dbOfDelete (deleteBooking c6db6 exAdmin 21) c6db6

/-- C6: garage statistics bookkeeping.  (1) A committed create increments the
garage's `totalBookings` by one, leaving `completedBookings` unchanged; (2) a
committed transition of an in-progress booking to `completed` increments
`completedBookings` by one, leaving `totalBookings` unchanged; (3) a
committed soft delete of a completed booking decrements `completedBookings`
with `Math.max(0, c-1)` (Nat subtraction, floored at zero), leaving
`totalBookings` unchanged; and (4) in the concrete scenario of three creates
and one completion, garage 1 reads (totalBookings, completedBookings) =
(3, 1), then (3, 0) after soft-deleting the completed booking. -/
theorem C6_garage_stats :
    (∀ db userId gid sid date newId slot vehicle notes g db' b,
       (db.garages gid).filter (fun g => !g.isDeleted && g.status == GarageStatus.active) = some g →
       createBooking db userId gid sid date newId slot vehicle notes = .ok (db', b) →
       db'.garages gid = some { g with stats :=
         { totalBookings := g.stats.totalBookings + 1,
           completedBookings := g.stats.completedBookings } })
  ∧ (∀ db actor bid reason now bk g r,
       db.bookings.find? (fun b => b.id == bid) = some bk → bk.isDeleted = false →
       db.garages bk.garage = some g → (g.owner = actor.id ∨ actor.role = Role.admin) →
       bk.status = .inProgress →
       updateBookingStatus db actor bid .completed reason now = .ok r →
       r.db.garages bk.garage = some { g with stats :=
         { totalBookings := g.stats.totalBookings,
           completedBookings := g.stats.completedBookings + 1 } })
  ∧ (∀ db actor bid bk g db',
       db.bookings.find? (fun b => b.id == bid) = some bk → bk.isDeleted = false →
       bk.status = .completed → db.garages bk.garage = some g →
       deleteBooking db actor bid = .ok db' →
       db'.garages bk.garage = some { g with stats :=
         { totalBookings := g.stats.totalBookings,
           completedBookings := g.stats.completedBookings - 1 } })
  ∧ ((c6db6.garages 1).map (fun g => (g.stats.totalBookings, g.stats.completedBookings)) = some (3, 1)
     ∧ (c6db7.garages 1).map (fun g => (g.stats.totalBookings, g.stats.completedBookings)) = some (3, 0)) := by
  refine ⟨?_, ?_, ?_, by decide, by decide⟩
  · intro db userId gid sid date newId slot vehicle notes g db' b hG hok
    unfold createBooking at hok
    rw [hG] at hok
    dsimp only at hok
    repeat' split at hok
    · exact absurd hok (by simp)
    · exact absurd hok (by simp)
    · simp only [Except.ok.injEq, Prod.mk.injEq] at hok
      obtain ⟨hdb, _hb⟩ := hok
      rw [← hdb]
      simp
  · intro db actor bid reason now bk g r hfind hdel hg hauth hst hok
    have hauthb : (!(g.owner == actor.id) && !(actor.role == Role.admin)) = false := by
      rcases hauth with h | h <;> simp [h]
    unfold updateBookingStatus at hok
    rw [hfind] at hok
    dsimp only at hok
    rw [if_neg (by simp [hdel])] at hok
    rw [hg] at hok
    dsimp only at hok
    rw [if_neg (by simp [hauthb])] at hok
    rw [hst] at hok
    rw [if_neg (by decide)] at hok
    rw [if_neg (by decide)] at hok
    try dsimp only at hok
    simp only [Except.ok.injEq] at hok
    rw [← hok]
    simp
  · intro db actor bid bk g db' hfind hdel hst hg hok
    unfold deleteBooking at hok
    rw [hfind] at hok
    dsimp only at hok
    rw [if_neg (by simp [hdel])] at hok
    split at hok
    · exact absurd hok (by simp)
    · rw [hst] at hok
      rw [if_pos (by decide)] at hok
      rw [hg] at hok
      dsimp only at hok
      simp only [Except.ok.injEq] at hok
      rw [← hok]
      simp

/-- Booking 13 currently in progress at garage 1. -/
def c6ipBooking : Booking := { exBooking with id := 13, status := .inProgress }

/-- Store holding the in-progress booking 13. -/
def c6ipDB : DB := { baseDB with bookings := [c6ipBooking] }

/-- The committed result of completing booking 13 (fallback on the impossible
abort branch). -/
def c6CompleteRes : UpdateResult :=
  match updateBookingStatus c6ipDB exOwner 13 .completed none 4 with
  | .ok r => r
  | .error _ =>
    { db := c6ipDB, doc := loadBooking c6ipBooking, booking := c6ipBooking, changed := false }

/-- Store after the admin soft-deletes the completed booking 12 of `c4DB`. -/
def c6DelAfter : DB := dbOfDelete (deleteBooking c4DB exAdmin 12) c4DB

/-- Witness for C6 at concrete inputs: a create bumps garage 1's
totalBookings, completing booking 13 bumps completedBookings, and deleting
the completed booking 12 decrements completedBookings (floored at zero). -/
theorem C6_garage_stats_witness :
    c1After.garages 1 = some { exGarage with stats :=
      { totalBookings := exGarage.stats.totalBookings + 1,
        completedBookings := exGarage.stats.completedBookings } }
  ∧ c6CompleteRes.db.garages 1 = some { exGarage with stats :=
      { totalBookings := exGarage.stats.totalBookings,
        completedBookings := exGarage.stats.completedBookings + 1 } }
  ∧ c6DelAfter.garages 1 = some { exGarage with stats :=
      { totalBookings := exGarage.stats.totalBookings,
        completedBookings := exGarage.stats.completedBookings - 1 } } := by
  refine ⟨?_, ?_, ?_⟩
  · exact C6_garage_stats.1 baseDB 7 1 2 1 11 exSlot exVehicle "" exGarage c1After
      c1NewBooking (by decide) rfl
  · exact C6_garage_stats.2.1 c6ipDB exOwner 13 none 4 c6ipBooking exGarage c6CompleteRes
      (by decide) (by decide) (by decide) (Or.inl (by decide)) (by decide) rfl
  · exact C6_garage_stats.2.2.1 c4DB exAdmin 12 c4Booking exGarage c6DelAfter
      (by decide) (by decide) (by decide) (by decide) rfl

/-- Committed store of a webhook delivery, or the unchanged store on abort. -/
def dbOfWebhook (r : Except WebhookErr DB) (fallback : DB) : DB :=
  match r with
  | .ok d => d
  | .error _ => fallback

/-- Pending booking payment for booking 10, transaction reference "tx-10". -/
def c5Payment : Payment :=
  { id := 30, user := 7, paymentType := .booking, booking := some 10,
    garageCreationGarage := none, amount := 100, status := .pending,
    transactionId := "tx-10", paidAt := none }

/-- `c1DB` (pending booking 10) plus the pending payment 30. -/
def c5db0 : DB := { c1DB with payments := [c5Payment] }

/-- After the first settled webhook delivery: payment completed, paidAt 5,
booking 10 auto-approved. -/
def c5db1 : DB := dbOfWebhook (handleChapaWebhook c5db0 true "tx-10" "success" 5) c5db0

/-- Garage owner moves booking 10 onwards: approved → in_progress. -/
def c5db2 : DB := dbOfUpdate (updateBookingStatus c5db1 exOwner 10 .inProgress none 6) c5db1

/-- ... and in_progress → completed: the booking has moved past approved. -/
def c5db3 : DB := dbOfUpdate (updateBookingStatus c5db2 exOwner 10 .completed none 7) c5db2

/-- The duplicate settled webhook delivery for the already-completed payment. -/
def c5db4 : DB := dbOfWebhook (handleChapaWebhook c5db3 true "tx-10" "success" 8) c5db3

/-- C5 counterexample: before the duplicate delivery the payment is already
`completed` (paidAt 5) and booking 10 has moved past approved to `completed`;
re-delivering the same settled webhook is not a no-op: the webhook never
re-checks the stored payment status, so it overwrites `paidAt` with the new
timestamp and forces booking 10 back to `approved`. -/
theorem C5_counterexample :
    (c5db3.payments.map (fun p => (p.status, p.paidAt)) = [(.completed, some 5)]
      ∧ c5db3.bookings.map Booking.status = [.completed])
  ∧ c5db4.bookings.map Booking.status = [.approved]
  ∧ c5db4.payments.map (fun p => (p.status, p.paidAt)) = [(.completed, some 8)] := by
  decide

/-- C5 (amended): the two settlement paths differ.  (1) The webhook handler
applies the settled effects unconditionally — for any stored payment status,
a settled delivery for a booking payment rewrites the payment to
completed/paidAt := now and sets the referenced booking's status to
`approved` (so a duplicate delivery re-applies the mutation).  (2) The manual
verification path re-checks the stored status before mutating: for a payment
already `completed`, a settled verification is a safe no-op that returns the
store unchanged. -/
theorem C5_settlement_idempotency :
    (∀ db txRef now payment bid,
       db.payments.find? (fun p => p.transactionId == txRef) = some payment →
       payment.paymentType = .booking → payment.booking = some bid →
       ∃ db', handleChapaWebhook db true txRef "success" now = .ok db' ∧
         db'.bookings = db.bookings.map (fun b =>
           if b.id == bid then { b with status := BookingStatus.approved } else b) ∧
         db'.payments = db.payments.map (fun p =>
           if p.id == payment.id then
             { payment with status := .completed, paidAt := some now } else p))
  ∧ (∀ db txRef now payment,
       db.payments.find? (fun p => p.transactionId == txRef) = some payment →
       payment.status = .completed →
       verifyPayment db txRef "success" now = .ok db) := by
  constructor
  · intro db txRef now payment bid hfind htype hbid
    unfold handleChapaWebhook
    rw [if_neg (by decide)]
    rw [hfind]
    dsimp only
    rw [htype, hbid]
    simp only [beq_self_eq_true, if_true,
      (by decide : (PaymentType.booking == PaymentType.garageCreation) = false), if_false]
    refine ⟨_, rfl, by simp, by simp [htype, hbid]⟩
  · intro db txRef now payment hfind hst
    unfold verifyPayment
    rw [hfind]
    dsimp only
    rw [if_neg (by simp [hst])]
    have hsf : (("success" : String) == "failed") = false := by decide
    rw [if_neg (by simp [hsf])]

/-- The payment as stored after the first settled delivery. -/
def c5PaymentSettled : Payment := { c5Payment with status := .completed, paidAt := some 5 }

/-- Store holding only the already-completed payment 30, for the manual
verification no-op. -/
def c5VerifyDB : DB := { baseDB with payments := [c5PaymentSettled] }

/-- Witness for C5 at concrete inputs: the duplicate settled delivery against
`c5db3` re-applies the booking/payment mutations, while the settled manual
verification of the already-completed payment returns the store unchanged. -/
theorem C5_settlement_idempotency_witness :
    (∃ db', handleChapaWebhook c5db3 true "tx-10" "success" 8 = .ok db' ∧
       db'.bookings = c5db3.bookings.map (fun b =>
         if b.id == 10 then { b with status := BookingStatus.approved } else b) ∧
       db'.payments = c5db3.payments.map (fun p =>
         if p.id == c5PaymentSettled.id then
           { c5PaymentSettled with status := .completed, paidAt := some 8 } else p))
  ∧ verifyPayment c5VerifyDB "tx-10" "success" 9 = .ok c5VerifyDB := by
  constructor
  · exact C5_settlement_idempotency.1 c5db3 "tx-10" 8 c5PaymentSettled 10
      (by decide) (by decide) (by decide)
  · exact C5_settlement_idempotency.2 c5VerifyDB "tx-10" 9 c5PaymentSettled
      (by decide) (by decide)

/-- C10: for any payment found by transaction reference, a webhook delivery
whose payload status is not 'success' rewrites the payment's status to
`failed` unconditionally — there is no hypothesis on the stored status, so
this covers a payment already `completed` — while `paidAt` keeps its stored
value and the bookings, users and garages collections are untouched (no
settlement side effect is reversed). -/
theorem C10_failed_webhook_unconditional :
    ∀ db txRef payloadStatus now payment,
      db.payments.find? (fun p => p.transactionId == txRef) = some payment →
      (payloadStatus == "success") = false →
      ∃ db', handleChapaWebhook db true txRef payloadStatus now = .ok db' ∧
        db'.payments = db.payments.map (fun p =>
          if p.id == payment.id then { payment with status := .failed } else p) ∧
        db'.bookings = db.bookings ∧ db'.users = db.users ∧ db'.garages = db.garages := by
  intro db txRef payloadStatus now payment hfind hstatus
  unfold handleChapaWebhook
  rw [if_neg (by decide)]
  rw [hfind]
  dsimp only
  rw [hstatus]
  simp only [Bool.false_eq_true, if_false]
  exact ⟨_, rfl, rfl, rfl, rfl, rfl⟩

/-- Witness for C10 at a concrete input: a 'failed' delivery for the
already-completed payment 30 of `c5VerifyDB` overwrites its status to
`failed` (keeping paidAt 5) and leaves every other collection unchanged. -/
theorem C10_failed_webhook_unconditional_witness :
    ∃ db', handleChapaWebhook c5VerifyDB true "tx-10" "failed" 9 = .ok db' ∧
      db'.payments = c5VerifyDB.payments.map (fun p =>
        if p.id == c5PaymentSettled.id then
          { c5PaymentSettled with status := .failed } else p) ∧
      db'.bookings = c5VerifyDB.bookings ∧ db'.users = c5VerifyDB.users ∧
      db'.garages = c5VerifyDB.garages :=
  C10_failed_webhook_unconditional c5VerifyDB "tx-10" "failed" 9 c5PaymentSettled
    (by decide) (by decide)

/-- Completed booking 40 of car owner 7 at garage 1. -/
def c8Booking : Booking := { exBooking with id := 40, status := .completed }

/-- A second, unrelated active garage with id 2. -/
def c8Garage2 : Garage := { exGarage with id := 2 }

/-- Store with the completed booking 40 (garage 1) and two garages 1 and 2. -/
def c8DB : DB := { baseDB with
  bookings := [c8Booking],
  garages := fun n =>
    if n == 1 then some exGarage else if n == 2 then some c8Garage2 else none }

/-- C8 counterexample: booking 40 belongs to garage 1, yet `createReview`
called by its car owner with the unrelated garage 2 succeeds — the controller
never compares the supplied garage with `booking.garage`, refuting the claim
that success requires the supplied garage to match the booking's garage. -/
theorem C8_counterexample :
    isOkE (createReview c8DB 7 2 40 5 50) = true
  ∧ (c8DB.bookings.find? (fun b => b.id == 40)).map Booking.garage = some 1 := by
  decide

/-- C8 (amended): `createReview` succeeds exactly when the single booking
query `{_id, carOwner, isDeleted: false}` finds the booking — an absent
booking, another owner's booking and a soft-deleted booking all fail with the
same not-found error, not distinct kinds — its status is `completed` or
`approved` (else invalid-state), no non-deleted review references the booking
(else duplicate), and the supplied garage merely exists and is not deleted
(else garage-not-found); the booking's own garage is never compared.  The
unique index on `booking` makes the insert itself fail when any review, even
a soft-deleted one, references the booking, so at most one review per booking
ever exists, and creation preserves that invariant. -/
theorem C8_review_gate :
    (∀ db userId gid bid rating rid,
       db.bookings.find? (fun b => b.id == bid && b.carOwner == userId && !b.isDeleted) = none →
       createReview db userId gid bid rating rid = .error .bookingNotFound)
  ∧ (∀ db userId gid bid rating rid bk,
       db.bookings.find? (fun b => b.id == bid && b.carOwner == userId && !b.isDeleted) = some bk →
       (bk.status == BookingStatus.completed || bk.status == BookingStatus.approved) = false →
       createReview db userId gid bid rating rid = .error (.invalidState bk.status))
  ∧ (∀ db userId gid bid rating rid bk r0,
       db.bookings.find? (fun b => b.id == bid && b.carOwner == userId && !b.isDeleted) = some bk →
       (bk.status == BookingStatus.completed || bk.status == BookingStatus.approved) = true →
       db.reviews.find? (fun r => r.booking == bid && !r.isDeleted) = some r0 →
       createReview db userId gid bid rating rid = .error .duplicateReview)
  ∧ (∀ db userId gid bid rating rid bk,
       db.bookings.find? (fun b => b.id == bid && b.carOwner == userId && !b.isDeleted) = some bk →
       (bk.status == BookingStatus.completed || bk.status == BookingStatus.approved) = true →
       db.reviews.find? (fun r => r.booking == bid && !r.isDeleted) = none →
       (db.garages gid).filter (fun g => !g.isDeleted) = none →
       createReview db userId gid bid rating rid = .error .garageNotFound)
  ∧ (∀ db userId gid bid rating rid bk g,
       db.bookings.find? (fun b => b.id == bid && b.carOwner == userId && !b.isDeleted) = some bk →
       (bk.status == BookingStatus.completed || bk.status == BookingStatus.approved) = true →
       db.reviews.find? (fun r => r.booking == bid && !r.isDeleted) = none →
       (db.garages gid).filter (fun g => !g.isDeleted) = some g →
       db.reviews.any (fun r => r.booking == bid) = false →
       ∃ db' rv, createReview db userId gid bid rating rid = .ok (db', rv) ∧
         rv.carOwner = userId ∧ rv.garage = gid ∧ rv.booking = bid ∧
         db'.reviews = db.reviews ++ [rv])
  ∧ (∀ db userId gid bid rating rid db' rv,
       atMostOneReviewPerBooking db →
       createReview db userId gid bid rating rid = .ok (db', rv) →
       atMostOneReviewPerBooking db') := by
  refine ⟨?_, ?_, ?_, ?_, ?_, ?_⟩
  · intro db userId gid bid rating rid hfind
    unfold createReview
    rw [hfind]
  · intro db userId gid bid rating rid bk hfind hstatus
    unfold createReview
    rw [hfind]
    dsimp only
    rw [if_pos (by simp [hstatus])]
  · intro db userId gid bid rating rid bk r0 hfind hstatus hrev
    unfold createReview
    rw [hfind]
    dsimp only
    rw [if_neg (by simp [hstatus])]
    rw [hrev]
  · intro db userId gid bid rating rid bk hfind hstatus hrev hgar
    unfold createReview
    rw [hfind]
    dsimp only
    rw [if_neg (by simp [hstatus])]
    rw [hrev]
    dsimp only
    rw [hgar]
  · intro db userId gid bid rating rid bk g hfind hstatus hrev hgar hany
    unfold createReview
    rw [hfind]
    dsimp only
    rw [if_neg (by simp [hstatus])]
    rw [hrev]
    dsimp only
    rw [hgar]
    dsimp only
    rw [if_neg (by simp [hany])]
    exact ⟨_, _, rfl, rfl, rfl, rfl, rfl⟩
  · intro db userId gid bid rating rid db' rv hinv hok
    unfold createReview at hok
    cases hfind : db.bookings.find? (fun b => b.id == bid && b.carOwner == userId && !b.isDeleted) with
    | none => rw [hfind] at hok; exact absurd hok (by simp)
    | some bk =>
      rw [hfind] at hok
      dsimp only at hok
      by_cases hstatus : (!(bk.status == BookingStatus.completed || bk.status == BookingStatus.approved)) = true
      · rw [if_pos hstatus] at hok; exact absurd hok (by simp)
      · rw [if_neg hstatus] at hok
        cases hrev : db.reviews.find? (fun r => r.booking == bid && !r.isDeleted) with
        | some r0 => rw [hrev] at hok; exact absurd hok (by simp)
        | none =>
          rw [hrev] at hok
          dsimp only at hok
          cases hgar : (db.garages gid).filter (fun g => !g.isDeleted) with
          | none => rw [hgar] at hok; exact absurd hok (by simp)
          | some g =>
            rw [hgar] at hok
            dsimp only at hok
            by_cases hany : db.reviews.any (fun r => r.booking == bid) = true
            · rw [if_pos hany] at hok; exact absurd hok (by simp)
            · rw [if_neg hany] at hok
              simp only [Except.ok.injEq, Prod.mk.injEq] at hok
              obtain ⟨hdb, hrv⟩ := hok
              intro bid'
              have hreviews : db'.reviews = db.reviews ++ [rv] := by
                rw [← hdb, ← hrv]
              rw [hreviews, List.countP_append]
              have hbid : rv.booking = bid := by rw [← hrv]
              by_cases hmem : (rv.booking == bid') = true
              · have h1 : rv.booking = bid' := by simpa using hmem
                have hbid' : bid' = bid := by rw [← h1]; exact hbid
                rw [hbid']
                have hany' : db.reviews.any (fun r => r.booking == bid) = false :=
                  Bool.eq_false_iff.mpr hany
                have hzero : db.reviews.countP (fun r => r.booking == bid) = 0 := by
                  refine List.countP_eq_zero.mpr ?_
                  intro r hr
                  exact List.any_eq_false.mp hany' r hr
                rw [hzero]
                simp [List.countP_cons, hbid]
              · have hz : List.countP (fun r => r.booking == bid') [rv] = 0 := by
                  simp only [List.countP_cons, List.countP_nil]
                  simp [hmem]
                rw [hz]
                simpa using hinv bid'

/-- An existing non-deleted review of booking 40. -/
def c8Review : Review :=
  { id := 60, carOwner := 7, garage := 1, booking := 40, rating := 4, isDeleted := false }

/-- `c8DB` plus the existing review of booking 40. -/
def c8DupDB : DB := { c8DB with reviews := [c8Review] }

/-- Committed store of the successful review creation against `c8DB`. -/
def c8After : DB :=
  match createReview c8DB 7 1 40 5 54 with
  | .ok (d, _) => d
  | .error _ => c8DB

/-- The review inserted by the successful creation against `c8DB`. -/
def c8NewReview : Review :=
  match createReview c8DB 7 1 40 5 54 with
  | .ok (_, r) => r
  | .error _ => c8Review

/-- Witness for C8 at concrete inputs: each precondition violation yields its
error (an unknown booking id, a pending booking, an existing review, an
unknown garage), a clean creation succeeds appending one review, and the
committed store keeps at most one review per booking. -/
theorem C8_review_gate_witness :
    createReview c8DB 9 1 99 5 51 = .error .bookingNotFound
  ∧ createReview c1DB 7 1 10 5 52 = .error (.invalidState .pending)
  ∧ createReview c8DupDB 7 1 40 5 53 = .error .duplicateReview
  ∧ createReview c8DB 7 99 40 5 53 = .error .garageNotFound
  ∧ (∃ db' rv, createReview c8DB 7 1 40 5 54 = .ok (db', rv) ∧
       rv.carOwner = 7 ∧ rv.garage = 1 ∧ rv.booking = 40 ∧
       db'.reviews = c8DB.reviews ++ [rv])
  ∧ atMostOneReviewPerBooking c8After := by
  refine ⟨?_, ?_, ?_, ?_, ?_, ?_⟩
  · exact C8_review_gate.1 c8DB 9 1 99 5 51 (by decide)
  · exact C8_review_gate.2.1 c1DB 7 1 10 5 52 exBooking (by decide) (by decide)
  · exact C8_review_gate.2.2.1 c8DupDB 7 1 40 5 53 c8Booking c8Review
      (by decide) (by decide) (by decide)
  · exact C8_review_gate.2.2.2.1 c8DB 7 99 40 5 53 c8Booking
      (by decide) (by decide) (by decide) (by decide)
  · exact C8_review_gate.2.2.2.2.1 c8DB 7 1 40 5 54 c8Booking exGarage
      (by decide) (by decide) (by decide) (by decide) (by decide)
  · exact C8_review_gate.2.2.2.2.2 c8DB 7 1 40 5 54 c8After c8NewReview
      (by intro bid; simp [c8DB, baseDB]) rfl

/-- C9 (code-bug evidence): `router.use(protect)` is registered before every
booking route, so a request without an authenticated principal is rejected
as unauthorized on every route — all mutating operations (create, status
transition, cancel, soft delete, attachment upload/delete), as the claim
states, but also the read-only check-availability query, which the
controller documents as public yet the router protects: it never reaches its
handler unauthenticated. -/
theorem C9_unauthenticated_dispatch :
    (mutatingBookingRoutes.all
      (fun r => dispatchBooking none r == Dispatch.unauthorized)) = true
  ∧ dispatchBooking none .create = .unauthorized
  ∧ dispatchBooking none .updateStatus = .unauthorized
  ∧ dispatchBooking none .cancel = .unauthorized
  ∧ dispatchBooking none .softDelete = .unauthorized
  ∧ dispatchBooking none .uploadAttach = .unauthorized
  ∧ dispatchBooking none .deleteAttach = .unauthorized
  ∧ dispatchBooking none .checkAvail = .unauthorized := by decide
